import Mathlib

/-!
Shallow embedding of the DRACOON OAuth2 client core (`src/core.rs` of
`dracoon-oxide`).  The HTTP transport is modelled as an oracle: each
network-touching operation receives the outcome of its single HTTP
exchange as a parameter of type `Option HttpResponse`, where `none`
stands for a transport failure of `send()` and an `HttpResponse` value
records the status code together with what the two possible JSON
deserialisations of the body would yield.  Mutation of `&mut self` is
modelled by explicit state passing; `Utc::now()` is passed in as an
integer timestamp in milliseconds.
-/

namespace Dracoon

/-- Constant `GRANT_TYPE_PASSWORD` from `core.rs`. -/
def GRANT_TYPE_PASSWORD : String := "password"

/-- Constant `GRANT_TYPE_AUTH_CODE` from `core.rs`. -/
def GRANT_TYPE_AUTH_CODE : String := "authorization_code"

/-- Constant `GRANT_TYPE_REFRESH_TOKEN` from `core.rs`. -/
def GRANT_TYPE_REFRESH_TOKEN : String := "refresh_token"

/-- Constant `TOKEN_TYPE_HINT_ACCESS` from `core.rs`. -/
def TOKEN_TYPE_HINT_ACCESS : String := "access_token"

/-- Constant `DRACOON_REDIRECT_URL` from `core.rs`. -/
def DRACOON_REDIRECT_URL : String := "oauth/callback"

/-- DRACOON token response (`OAuth2TokenResponse` in `core.rs`). -/
structure OAuth2TokenResponse where
  access_token : String
  refresh_token : String
  token_type : Option String
  expires_in : Int
  expires_in_inactive : Int
  scope : String
deriving DecidableEq, Repr

/-- Error response model from the DRACOON API (`DRACOONErrorResponse`). -/
structure DRACOONErrorResponse where
  code : Option Int
  message : Option String
  error : Option String
  error_description : Option String
  debug_info : Option String
  error_code : Option Int
deriving DecidableEq, Repr

/-- Main error enum (`DRACOONClientError`).  `RequestFailed` wraps a
`reqwest::Error`; the wrapped transport error carries no information the
claims need, so it is modelled as a bare constructor. -/
inductive DRACOONClientError where
  | RequestFailed
  | MissingArguments
  | BrokenConnection
  | DRACOONErrror (e : DRACOONErrorResponse)
deriving DecidableEq, Repr

/-- Connection details (`DRACOONConnection`).  `connected_at` is a
`DateTime<Utc>` modelled as milliseconds since the epoch. -/
structure DRACOONConnection where
  connected_at : Int
  access_token : String
  access_token_validity : Int
  refresh_token : String
  refresh_token_validity : Int
deriving DecidableEq, Repr

/-- Main client struct (`DRACOONClient`); the `reqwest::Client` handle
carries no state the claims depend on and is omitted. -/
structure DRACOONClient where
  base_url : String
  client_id : String
  client_secret : String
  connection : Option DRACOONConnection
  connected : Bool
deriving DecidableEq, Repr

/-- Supported OAuth2 flows (`OAuth2ConnectionType`). -/
inductive OAuth2ConnectionType where
  | PasswordFlow (username password : String)
  | AuthCode (code : String)
  | RefreshToken
deriving DecidableEq, Repr

/-- Form payload for the password flow (`OAuth2PasswordFlow`). -/
structure OAuth2PasswordFlow where
  username : String
  password : String
  grant_type : String
deriving DecidableEq, Repr

/-- Form payload for the auth-code flow (`OAuth2AuthCodeFlow`). -/
structure OAuth2AuthCodeFlow where
  client_id : String
  client_secret : String
  grant_type : String
  code : String
  redirect_uri : String
deriving DecidableEq, Repr

/-- Form payload for the refresh-token flow (`OAuth2RefreshTokenFlow`). -/
structure OAuth2RefreshTokenFlow where
  client_id : String
  client_secret : String
  grant_type : String
  refresh_token : String
deriving DecidableEq, Repr

/-- Form payload for token revocation (`OAuth2TokenRevoke`). -/
structure OAuth2TokenRevoke where
  client_id : String
  client_secret : String
  token_type_hint : String
  token : String
deriving DecidableEq, Repr

/-- Model of an HTTP response delivered by `reqwest`: the status code and
what `res.json::<OAuth2TokenResponse>()` respectively
`res.json::<DRACOONErrorResponse>()` would produce on the body (`none`
means that deserialisation fails). -/
structure HttpResponse where
  status : Nat
  tokenBody : Option OAuth2TokenResponse
  errorBody : Option DRACOONErrorResponse
deriving DecidableEq, Repr

/-- `send().await?`: a transport failure (`none`) becomes
`RequestFailed` via the `From<reqwest::Error>` impl. -/
def handle_send (r : Option HttpResponse) :
    Except DRACOONClientError HttpResponse :=
  match r with
  | some res => Except.ok res
  | none => Except.error DRACOONClientError.RequestFailed

/-- `res.json::<T>().await?` inside `parse_login_response`: a failed
deserialisation becomes `RequestFailed`. -/
def handle_json {α : Type} (r : Option α) : Except DRACOONClientError α :=
  match r with
  | some v => Except.ok v
  | none => Except.error DRACOONClientError.RequestFailed

/-- `DRACOONClient::parse_login_response` (core.rs lines 265-275). -/
def parse_login_response (res : HttpResponse) :
    Except DRACOONClientError OAuth2TokenResponse :=
  if res.status = 200 then
    match handle_json res.tokenBody with
    | Except.ok t => Except.ok t
    | Except.error e => Except.error e
  else
    match handle_json res.errorBody with
    | Except.ok e => Except.error (DRACOONClientError.DRACOONErrror e)
    | Except.error e => Except.error e

/-- The connection value built by `create_connection` (core.rs lines
150-156): note `access_token_validity` is set from
`expires_in_inactive` and `refresh_token_validity` from `expires_in`,
exactly as in the source. -/
def connection_of (now : Int) (t : OAuth2TokenResponse) : DRACOONConnection :=
  { connected_at := now
    access_token := t.access_token
    refresh_token := t.refresh_token
    access_token_validity := t.expires_in_inactive
    refresh_token_validity := t.expires_in }

/-- `DRACOONClient::create_connection` (core.rs lines 149-161); `now`
stands for the `Utc::now()` call on line 151. -/
def create_connection (c : DRACOONClient) (now : Int)
    (token_response : OAuth2TokenResponse) : DRACOONClient :=
  { c with connection := some (connection_of now token_response)
           connected := true }

/-- `DRACOONClient::get_connection` (core.rs lines 167-172). -/
def get_connection (c : DRACOONClient) :
    Except DRACOONClientError DRACOONConnection :=
  match c.connection with
  | some conn => Except.ok conn
  | none => Except.error DRACOONClientError.BrokenConnection

/-- `chrono::Duration::num_seconds` on a duration of `millis`
milliseconds: the number of whole seconds, truncated toward zero. -/
def num_seconds (millis : Int) : Int := Int.tdiv millis 1000

/-- `DRACOONClient::check_access_token_validity` (core.rs lines
174-184); `now` stands for `Utc::now()` on line 180. -/
def check_access_token_validity (c : DRACOONClient) (now : Int) :
    Except DRACOONClientError Bool :=
  match c.connection with
  | some conn =>
      Except.ok (decide (num_seconds (now - conn.connected_at) <
        conn.access_token_validity))
  | none => Except.error DRACOONClientError.BrokenConnection

/-- `DRACOONClient::test_connection` (core.rs lines 187-205): requires a
connection, then issues the authenticated ping; `send` is the transport
oracle for that GET. -/
def test_connection (c : DRACOONClient) (send : Option HttpResponse) :
    Except DRACOONClientError Bool :=
  match get_connection c with
  | Except.error e => Except.error e
  | Except.ok _conn =>
    match handle_send send with
    | Except.error e => Except.error e
    | Except.ok res =>
      if res.status = 200 then Except.ok true else Except.ok false

/-- The revocation form built on core.rs line 216. -/
def revoke_form (c : DRACOONClient) (conn : DRACOONConnection) :
    OAuth2TokenRevoke :=
  { token := conn.access_token
    token_type_hint := TOKEN_TYPE_HINT_ACCESS
    client_id := c.client_id
    client_secret := c.client_secret }

/-- The revocation request `disconnect` sends, as a function of the
client and the `revoke_refresh` argument (core.rs lines 209-216): the
guard and form construction before the POST. -/
def disconnect_revoke_form (c : DRACOONClient)
    (_revoke_refresh : Option Bool) :
    Except DRACOONClientError OAuth2TokenRevoke :=
  match get_connection c with
  | Except.error _ => Except.error DRACOONClientError.BrokenConnection
  | Except.ok conn => Except.ok (revoke_form c conn)

/-- `DRACOONClient::disconnect` (core.rs lines 207-237).  It consumes
`self` and on HTTP 200 returns it (`Ok(self)`) without touching
`self.connection` or `self.connected`; `_revoke_refresh` is never read
by the source.  `send` is the transport oracle for the revoke POST. -/
def disconnect (c : DRACOONClient) (_revoke_refresh : Option Bool)
    (send : Option HttpResponse) :
    Except DRACOONClientError DRACOONClient :=
  match get_connection c with
  | Except.error _ => Except.error DRACOONClientError.BrokenConnection
  | Except.ok _conn =>
    match handle_send send with
    | Except.error e => Except.error e
    | Except.ok res =>
      if res.status = 200 then Except.ok c
      else Except.error DRACOONClientError.BrokenConnection

/-- `DRACOONClient::connect_password_flow` (core.rs lines 277-308) with
the response of the token POST supplied by the oracle `send`. -/
def connect_password_flow (_c : DRACOONClient)
    (_user_name _password : String) (send : Option HttpResponse) :
    Except DRACOONClientError OAuth2TokenResponse :=
  match handle_send send with
  | Except.error e => Except.error e
  | Except.ok res => parse_login_response res

/-- `DRACOONClient::connect_auth_code` (core.rs lines 341-362) with the
response of the token POST supplied by the oracle `send`. -/
def connect_auth_code (_c : DRACOONClient) (_auth_code : String)
    (send : Option HttpResponse) :
    Except DRACOONClientError OAuth2TokenResponse :=
  match handle_send send with
  | Except.error e => Except.error e
  | Except.ok res => parse_login_response res

/-- `DRACOONClient::connect_refresh_token` (core.rs lines 310-333): the
guard on `self.connection` runs before any network interaction. -/
def connect_refresh_token (c : DRACOONClient)
    (send : Option HttpResponse) :
    Except DRACOONClientError OAuth2TokenResponse :=
  match c.connection with
  | none => Except.error DRACOONClientError.BrokenConnection
  | some _connection =>
    match handle_send send with
    | Except.error e => Except.error e
    | Except.ok res => parse_login_response res

/-- The flow dispatch of `connect` (core.rs lines 244-250). -/
def connect_exchange (c : DRACOONClient)
    (connection_type : OAuth2ConnectionType)
    (send : Option HttpResponse) :
    Except DRACOONClientError OAuth2TokenResponse :=
  match connection_type with
  | OAuth2ConnectionType.AuthCode auth_code =>
      connect_auth_code c auth_code send
  | OAuth2ConnectionType.PasswordFlow user_name password =>
      connect_password_flow c user_name password send
  | OAuth2ConnectionType.RefreshToken => connect_refresh_token c send

/-- `DRACOONClient::connect` (core.rs lines 240-263), state-passing: the
returned client is the post-call `self` (unchanged when the exchange
fails), paired with the `Result` value. -/
def connect (c : DRACOONClient)
    (connection_type : OAuth2ConnectionType)
    (send : Option HttpResponse) (now : Int) :
    DRACOONClient × Except DRACOONClientError DRACOONConnection :=
  match connect_exchange c connection_type send with
  | Except.error e => (c, Except.error e)
  | Except.ok result =>
    let c2 := create_connection c now result
    match c2.connection with
    | some conn => (c2, Except.ok conn)
    | none => (c2, Except.error DRACOONClientError.BrokenConnection)

/-- A concrete token response used in witnesses. -/
def token0 : OAuth2TokenResponse :=
  { access_token := "acc"
    refresh_token := "ref"
    token_type := some "bearer"
    expires_in := 28800
    expires_in_inactive := 3600
    scope := "all" }

/-- A concrete established connection used in witnesses. -/
def conn0 : DRACOONConnection := connection_of 1000 token0

/-- A concrete client with no connection state used in witnesses. -/
def client_init : DRACOONClient :=
  { base_url := "https://example.com/"
    client_id := "id"
    client_secret := "secret"
    connection := none
    connected := false }

/-- A concrete client holding connection `conn0` used in witnesses. -/
def client0 : DRACOONClient :=
  { client_init with connection := some conn0, connected := true }

/-- A concrete 200 response with a well-formed token body. -/
def resp200 : HttpResponse :=
  { status := 200, tokenBody := some token0, errorBody := none }

/-- Claim C1: for every flow selector (the refresh-token flow presupposes
a stored connection, otherwise the token endpoint is never contacted), if
the token endpoint responds with HTTP 200 and a well-formed token body,
`connect` installs and returns a connection whose `connected_at` is the
time of the call and whose token fields are exactly the corresponding
fields of the token response, under the mapping pinned by
`create_connection`. -/
theorem C1_connect_success (c : DRACOONClient) (sel : OAuth2ConnectionType)
    (t : OAuth2TokenResponse) (eb : Option DRACOONErrorResponse) (now : Int)
    (hsel : sel = OAuth2ConnectionType.RefreshToken → c.connection.isSome) :
    connect c sel (some { status := 200, tokenBody := some t, errorBody := eb }) now =
      (create_connection c now t, Except.ok (connection_of now t)) ∧
    (connection_of now t).connected_at = now ∧
    (connection_of now t).access_token = t.access_token ∧
    (connection_of now t).refresh_token = t.refresh_token ∧
    (connection_of now t).access_token_validity = t.expires_in_inactive ∧
    (connection_of now t).refresh_token_validity = t.expires_in := by
  refine ⟨?_, rfl, rfl, rfl, rfl, rfl⟩
  cases sel with
  | PasswordFlow u p => rfl
  | AuthCode a => rfl
  | RefreshToken =>
      obtain ⟨conn, hc⟩ := Option.isSome_iff_exists.mp (hsel rfl)
      simp [connect, connect_exchange, connect_refresh_token, hc,
        handle_send, parse_login_response, handle_json, create_connection]

/-- Witness for C1 at a concrete password-flow call. -/
theorem C1_connect_success_witness :
    connect client_init (OAuth2ConnectionType.PasswordFlow "u" "p")
      (some { status := 200, tokenBody := some token0, errorBody := none }) 5 =
      (create_connection client_init 5 token0, Except.ok (connection_of 5 token0)) ∧
    (connection_of 5 token0).connected_at = 5 ∧
    (connection_of 5 token0).access_token = token0.access_token ∧
    (connection_of 5 token0).refresh_token = token0.refresh_token ∧
    (connection_of 5 token0).access_token_validity = token0.expires_in_inactive ∧
    (connection_of 5 token0).refresh_token_validity = token0.expires_in :=
  C1_connect_success client_init (OAuth2ConnectionType.PasswordFlow "u" "p")
    token0 none 5 (fun h => nomatch h)

/-- Claim C2 (counterexample): a Client with an established connection,
after a `disconnect` that receives HTTP 200, is returned unchanged, and a
subsequent `test_connection` on the returned Client does not fail with
BrokenConnection — it succeeds with `ok true` — refuting the claimed
Disconnected semantics. -/
theorem C2_counterexample :
    disconnect client0 (some true) (some resp200) = Except.ok client0 ∧
    test_connection client0 (some resp200) = Except.ok true ∧
    test_connection client0 (some resp200) ≠
      Except.error DRACOONClientError.BrokenConnection :=
  ⟨rfl, rfl, fun h => Except.noConfusion
    (show Except.ok true = Except.error DRACOONClientError.BrokenConnection from h)⟩

/-- Claim C2 (amended): `disconnect` that receives HTTP 200 returns the
Client unchanged, its Connection State still present; a subsequent
`test_connection` without reconnecting does not fail with
BrokenConnection but performs the ping with the stored access token and
reports whether the ping status is exactly 200. -/
theorem C2_disconnect_keeps_state (c : DRACOONClient)
    (conn : DRACOONConnection) (r : Option Bool) (res res2 : HttpResponse)
    (h : c.connection = some conn) (h200 : res.status = 200) :
    disconnect c r (some res) = Except.ok c ∧
    test_connection c (some res2) = Except.ok (decide (res2.status = 200)) ∧
    test_connection c (some res2) ≠
      Except.error DRACOONClientError.BrokenConnection := by
  have h2 : test_connection c (some res2) =
      Except.ok (decide (res2.status = 200)) := by
    by_cases hs : res2.status = 200 <;>
      simp [test_connection, get_connection, h, handle_send, hs]
  refine ⟨?_, h2, ?_⟩
  · simp [disconnect, get_connection, h, handle_send, h200]
  · rw [h2]
    exact fun hh => Except.noConfusion hh

/-- Witness for the amended C2 at a concrete client and responses. -/
theorem C2_disconnect_keeps_state_witness :
    disconnect client0 none (some resp200) = Except.ok client0 ∧
    test_connection client0 (some resp200) =
      Except.ok (decide (resp200.status = 200)) ∧
    test_connection client0 (some resp200) ≠
      Except.error DRACOONClientError.BrokenConnection :=
  C2_disconnect_keeps_state client0 conn0 none resp200 resp200 rfl rfl

/-- Claim C3: the connection installed from a token response stores the
response field expires_in as refresh_token_validity and the response
field expires_in_inactive as access_token_validity — the swapped mapping
pinned by the design note. -/
theorem C3_validity_mapping (c : DRACOONClient) (now : Int)
    (t : OAuth2TokenResponse) :
    (create_connection c now t).connection = some (connection_of now t) ∧
    (connection_of now t).refresh_token_validity = t.expires_in ∧
    (connection_of now t).access_token_validity = t.expires_in_inactive :=
  ⟨rfl, rfl, rfl⟩

/-- Claim C4: parse_login_response returns the deserialised token body as
success exactly on status 200, returns the deserialised provider error as
a DRACOONErrror (domain-level error) on any other status, and on a failed
deserialisation in either branch yields the transport-layer error
RequestFailed, never a DRACOONErrror. -/
theorem C4_parse_login_response (res : HttpResponse) :
    (res.status = 200 → ∀ t, res.tokenBody = some t →
      parse_login_response res = Except.ok t) ∧
    (res.status = 200 → res.tokenBody = none →
      parse_login_response res = Except.error DRACOONClientError.RequestFailed) ∧
    (res.status ≠ 200 → ∀ e, res.errorBody = some e →
      parse_login_response res =
        Except.error (DRACOONClientError.DRACOONErrror e)) ∧
    (res.status ≠ 200 → res.errorBody = none →
      parse_login_response res = Except.error DRACOONClientError.RequestFailed) := by
  refine ⟨?_, ?_, ?_, ?_⟩
  · intro hs t hb
    simp [parse_login_response, handle_json, hs, hb]
  · intro hs hb
    simp [parse_login_response, handle_json, hs, hb]
  · intro hs e hb
    simp [parse_login_response, handle_json, hs, hb]
  · intro hs hb
    simp [parse_login_response, handle_json, hs, hb]

/-- Witness for C4 at a concrete 200 response with a well-formed body. -/
theorem C4_parse_login_response_witness :
    parse_login_response resp200 = Except.ok token0 :=
  (C4_parse_login_response resp200).1 rfl token0 rfl

/-- Claim C5: whenever the token exchange fails with any error, `connect`
returns that error and the Client — its Connection State and its
connected flag — exactly as it was before the call; no partial
transition occurs. -/
theorem C5_connect_error_preserves_state (c : DRACOONClient)
    (sel : OAuth2ConnectionType) (send : Option HttpResponse) (now : Int)
    (e : DRACOONClientError)
    (h : connect_exchange c sel send = Except.error e) :
    connect c sel send now = (c, Except.error e) := by
  simp [connect, h]

/-- Witness for C5: a refresh-token connect with no stored state fails
and leaves the client untouched. -/
theorem C5_connect_error_preserves_state_witness :
    connect client_init OAuth2ConnectionType.RefreshToken none 0 =
      (client_init, Except.error DRACOONClientError.BrokenConnection) :=
  C5_connect_error_preserves_state client_init
    OAuth2ConnectionType.RefreshToken none 0
    DRACOONClientError.BrokenConnection rfl

/-- Claim C6: on a Client with no Connection State, test_connection,
disconnect, check_access_token_validity and connect with the RefreshToken
selector each fail with BrokenConnection, for every possible transport
outcome — in particular no token exchange is consulted. -/
theorem C6_no_connection_broken (c : DRACOONClient)
    (h : c.connection = none) (send : Option HttpResponse)
    (r : Option Bool) (now : Int) :
    test_connection c send = Except.error DRACOONClientError.BrokenConnection ∧
    disconnect c r send = Except.error DRACOONClientError.BrokenConnection ∧
    check_access_token_validity c now =
      Except.error DRACOONClientError.BrokenConnection ∧
    connect c OAuth2ConnectionType.RefreshToken send now =
      (c, Except.error DRACOONClientError.BrokenConnection) := by
  refine ⟨?_, ?_, ?_, ?_⟩ <;>
    simp [test_connection, disconnect, get_connection,
      check_access_token_validity, connect, connect_exchange,
      connect_refresh_token, h]

/-- Witness for C6 at a fresh client, even with a 200 transport oracle. -/
theorem C6_no_connection_broken_witness :
    test_connection client_init (some resp200) =
      Except.error DRACOONClientError.BrokenConnection ∧
    disconnect client_init (some true) (some resp200) =
      Except.error DRACOONClientError.BrokenConnection ∧
    check_access_token_validity client_init 7 =
      Except.error DRACOONClientError.BrokenConnection ∧
    connect client_init OAuth2ConnectionType.RefreshToken (some resp200) 7 =
      (client_init, Except.error DRACOONClientError.BrokenConnection) :=
  C6_no_connection_broken client_init rfl (some resp200) (some true) 7

/-- Claim C7: with an established Connection State, test_connection
returns ok true exactly when the ping status is 200 and ok false (not an
error) for every other status. -/
theorem C7_test_connection_iff_200 (c : DRACOONClient)
    (conn : DRACOONConnection) (res : HttpResponse)
    (h : c.connection = some conn) :
    test_connection c (some res) = Except.ok (decide (res.status = 200)) ∧
    (test_connection c (some res) = Except.ok true ↔ res.status = 200) := by
  have h1 : test_connection c (some res) =
      Except.ok (decide (res.status = 200)) := by
    by_cases hs : res.status = 200 <;>
      simp [test_connection, get_connection, h, handle_send, hs]
  refine ⟨h1, ?_⟩
  rw [h1]
  simp

/-- Witness for C7: ping answered 401 yields ok false, ping answered 200
yields ok true. -/
theorem C7_test_connection_iff_200_witness :
    test_connection client0
        (some { status := 401, tokenBody := none, errorBody := none }) =
      Except.ok (decide ((401 : Nat) = 200)) :=
  (C7_test_connection_iff_200 client0 conn0
    { status := 401, tokenBody := none, errorBody := none } rfl).1

/-- Claim C8: with an established Connection State,
check_access_token_validity returns true iff the elapsed whole seconds
since connected_at are strictly less than the stored access-token
validity window; in particular it returns false when they are equal. -/
theorem C8_validity_strict (c : DRACOONClient) (conn : DRACOONConnection)
    (now : Int) (h : c.connection = some conn) :
    check_access_token_validity c now =
      Except.ok (decide (num_seconds (now - conn.connected_at) <
        conn.access_token_validity)) ∧
    (check_access_token_validity c now = Except.ok true ↔
      num_seconds (now - conn.connected_at) < conn.access_token_validity) ∧
    (num_seconds (now - conn.connected_at) = conn.access_token_validity →
      check_access_token_validity c now = Except.ok false) := by
  have h1 : check_access_token_validity c now =
      Except.ok (decide (num_seconds (now - conn.connected_at) <
        conn.access_token_validity)) := by
    simp [check_access_token_validity, h]
  refine ⟨h1, ?_, ?_⟩
  · rw [h1]
    simp
  · intro he
    rw [h1, he]
    simp

/-- Witness for C8 immediately after connecting: zero elapsed seconds are
within the validity window. -/
theorem C8_validity_strict_witness :
    check_access_token_validity client0 1000 =
      Except.ok (decide (num_seconds (1000 - conn0.connected_at) <
        conn0.access_token_validity)) ∧
    (check_access_token_validity client0 1000 = Except.ok true ↔
      num_seconds (1000 - conn0.connected_at) < conn0.access_token_validity) ∧
    (num_seconds (1000 - conn0.connected_at) = conn0.access_token_validity →
      check_access_token_validity client0 1000 = Except.ok false) :=
  C8_validity_strict client0 conn0 1000 rfl

/-- Claim C9: disconnect builds the same revocation request — the stored
access token with the fixed access_token type hint — and produces the
same result for every value of the revoke_refresh argument: the flag
never alters behaviour. -/
theorem C9_revoke_refresh_noop (c : DRACOONClient)
    (conn : DRACOONConnection) (r1 r2 : Option Bool)
    (send : Option HttpResponse) (h : c.connection = some conn) :
    disconnect_revoke_form c r1 = disconnect_revoke_form c r2 ∧
    disconnect c r1 send = disconnect c r2 send ∧
    disconnect_revoke_form c r1 = Except.ok
      { client_id := c.client_id
        client_secret := c.client_secret
        token_type_hint := TOKEN_TYPE_HINT_ACCESS
        token := conn.access_token } := by
  refine ⟨rfl, rfl, ?_⟩
  simp [disconnect_revoke_form, get_connection, h, revoke_form]

/-- Witness for C9 on a concrete connected client and two distinct flag
values. -/
theorem C9_revoke_refresh_noop_witness :
    disconnect_revoke_form client0 none =
      disconnect_revoke_form client0 (some true) ∧
    disconnect client0 none (some resp200) =
      disconnect client0 (some true) (some resp200) ∧
    disconnect_revoke_form client0 none = Except.ok
      { client_id := client0.client_id
        client_secret := client0.client_secret
        token_type_hint := TOKEN_TYPE_HINT_ACCESS
        token := conn0.access_token } :=
  C9_revoke_refresh_noop client0 conn0 none (some true) (some resp200) rfl

/-- Claim C10: the defensive BrokenConnection branch closing `connect` is
unreachable: whenever the token exchange succeeds, create_connection has
installed a present Connection State before the final check, so connect
returns ok with the new state and never BrokenConnection. -/
theorem C10_success_never_broken (c : DRACOONClient)
    (sel : OAuth2ConnectionType) (send : Option HttpResponse) (now : Int)
    (t : OAuth2TokenResponse)
    (h : connect_exchange c sel send = Except.ok t) :
    connect c sel send now =
      (create_connection c now t, Except.ok (connection_of now t)) ∧
    (connect c sel send now).2 ≠
      Except.error DRACOONClientError.BrokenConnection := by
  have h1 : connect c sel send now =
      (create_connection c now t, Except.ok (connection_of now t)) := by
    simp [connect, h, create_connection]
  refine ⟨h1, ?_⟩
  rw [h1]
  exact fun hh => Except.noConfusion hh

/-- Witness for C10 at a concrete successful password-flow exchange. -/
theorem C10_success_never_broken_witness :
    connect client_init (OAuth2ConnectionType.PasswordFlow "u" "p")
        (some resp200) 0 =
      (create_connection client_init 0 token0,
        Except.ok (connection_of 0 token0)) ∧
    (connect client_init (OAuth2ConnectionType.PasswordFlow "u" "p")
        (some resp200) 0).2 ≠
      Except.error DRACOONClientError.BrokenConnection :=
  C10_success_never_broken client_init
    (OAuth2ConnectionType.PasswordFlow "u" "p") (some resp200) 0 token0 rfl

end Dracoon
